import Mathlib

/-!
Verification of the SLURM call-analysis orchestrator (`submit_slurm.py`).

The development shallowly embeds the orchestrator's pure logic:
* string helpers mirroring the Python/pathlib primitives the script uses
  (`str.lower`, `str.startswith`, `str.replace`, `pathlib.Path.suffix`,
  `pathlib.Path.stem`, `pathlib.Path.name`),
* a flat filesystem model (lists of path components) for discovery,
* the SLURM script template, submission, monitoring and result
  organisation logic, with external effects (sbatch, squeue, the real
  filesystem) supplied as oracles.
-/

/-! ## String helpers (Python semantics) -/

/-- Code-point lexicographic comparison of character lists: this is how
Python compares `str` values (and, for sibling paths, `pathlib.Path`
values, since siblings share their directory prefix). -/
def charListLe : List Char → List Char → Bool
  | [], _ => true
  | _ :: _, [] => false
  | a :: as, b :: bs =>
    decide (a.toNat < b.toNat) || (decide (a.toNat = b.toNat) && charListLe as bs)

/-- Python `s1 <= s2` on strings. -/
def strLeB (a b : String) : Bool := charListLe a.data b.data

/-- Python `s.lower()` restricted to the ASCII range actually used by the
audio-extension allow-list. -/
def strLower (s : String) : String := ⟨s.data.map Char.toLower⟩

/-- Python `s.startswith(pre)`. -/
def strStartsWith (s pre : String) : Bool := pre.data.isPrefixOf s.data

/-- Index of the last occurrence of a dot, as used by `pathlib` to compute
`suffix` and `stem`. -/
def rfindDot (l : List Char) : Option Nat :=
  ((l.enum.filter (fun p => p.2 = '.')).map Prod.fst).getLast?

/-- `pathlib.PurePath.suffix` of a single path component: the final
extension including the dot, or `""` when the name has no dot, starts
with its only dot, or ends with the dot. -/
def pathSuffix (name : String) : String :=
  let l := name.data
  match rfindDot l with
  | some i => if 0 < i ∧ i < l.length - 1 then ⟨l.drop i⟩ else ""
  | none => ""

/-- `pathlib.PurePath.stem` of a single path component: the name with its
final suffix removed. -/
def pathStem (name : String) : String :=
  let l := name.data
  match rfindDot l with
  | some i => if 0 < i ∧ i < l.length - 1 then ⟨l.take i⟩ else name
  | none => name

/-- One step of splitting a character list at `'/'` separators. -/
def splitSlash : List Char → List (List Char)
  | [] => [[]]
  | c :: rest =>
    let r := splitSlash rest
    if c = '/' then [] :: r
    else
      match r with
      | [] => [[c]]
      | h :: t => (c :: h) :: t

/-- `pathlib.PurePath.name`: the last nonempty component of a path
string. -/
def lastComponent (s : String) : String :=
  (((splitSlash s.data).filter (fun l => !l.isEmpty)).getLast?.map
    (fun l => String.mk l)).getD ""

/-- Python `str.replace(pat, rep)` (all non-overlapping occurrences, left
to right), fuel-structured so that it evaluates by kernel reduction; the
fuel `s.length` is always sufficient because each step consumes at least
one character. -/
def replListFuel (pat rep : List Char) : Nat → List Char → List Char
  | _, [] => []
  | 0, l => l
  | fuel + 1, c :: cs =>
    if pat.isPrefixOf (c :: cs)
    then rep ++ replListFuel pat rep fuel (List.drop (pat.length - 1) cs)
    else c :: replListFuel pat rep fuel cs

/-- Python `s.replace(pat, rep)` for a nonempty pattern. -/
def strReplace (s pat rep : String) : String :=
  ⟨replListFuel pat.data rep.data s.data.length s.data⟩

/-- Whitespace test for Python `str.split()` with no separator. -/
def isWs (c : Char) : Bool := c = ' ' || c = '\n' || c = '\t' || c = '\r'

/-- Helper for `splitWs`: accumulates the current word reversed. -/
def splitWsAux : List Char → List Char → List String
  | [], cur => if cur.isEmpty then [] else [⟨cur.reverse⟩]
  | c :: cs, cur =>
    if isWs c then
      (if cur.isEmpty then splitWsAux cs []
       else String.mk cur.reverse :: splitWsAux cs [])
    else splitWsAux cs (c :: cur)

/-- Python `s.split()` (split on whitespace runs, dropping empties). -/
def splitWs (s : String) : List String := splitWsAux s.data []

/-- Python truthiness of an optional string (`None` and `""` are falsy),
as used by `if self.config.qos:`, `if self.config.account:` and
`if job_id:`. -/
def optTruthy : Option String → Bool
  | some s => !s.isEmpty
  | none => false

/-- Python `if job_id:` filtering applied to `submit_slurm_job`'s result:
keeps only truthy identifiers. -/
def truthyOpt : Option String → Option String
  | some s => if s.isEmpty then none else some s
  | none => none

/-- Python `name.startswith(".")`. -/
def startsDot (s : String) : Bool :=
  match s.data with
  | [] => false
  | c :: _ => c = '.'

/-! ## Filesystem model and work-unit discovery

The real filesystem is modelled flatly: a directory tree is a list of
entries, each an (ordered) list of path components relative to the base
directory together with a directory/file flag.  `entry.path.length = 1`
means an immediate child of the base directory; `rglob("*")` over a child
named `n` corresponds to the entries whose first component is `n` and
whose depth is at least 2. -/

structure FsEntry where
  path : List String
  isDir : Bool
deriving DecidableEq, Repr

/-- `AUDIO_EXTENSIONS` from `submit_slurm.py`. -/
def AUDIO_EXTENSIONS : List String :=
  [".mp3", ".wav", ".m4a", ".flac", ".ogg", ".wmv", ".avi", ".mp4"]

/-- `DEFAULT_SCORE_THRESHOLD` from `submit_slurm.py`. -/
def DEFAULT_SCORE_THRESHOLD : Int := 75

/-- The test `f.suffix.lower() in AUDIO_EXTENSIONS` applied to an entry's
final path component (`rglob` yields both files and directories, and the
code tests the suffix of every yielded path). -/
def audioMatch (name : String) : Bool :=
  AUDIO_EXTENSIONS.contains (strLower (pathSuffix name))

/-- Name of an immediate child of the base directory. -/
def childName (e : FsEntry) : String := e.path.headD ""

/-- The immediate children of the base directory (`base_dir.iterdir()`). -/
def childEntries (fs : List FsEntry) : List FsEntry :=
  fs.filter (fun e => e.path.length = 1)

/-- Ordering of sibling paths used by `sorted(self.base_dir.iterdir())`:
`pathlib` paths that share their parent compare exactly as their final
component strings compare. -/
def entryLe (a b : FsEntry) : Prop := strLeB (childName a) (childName b) = true

instance : DecidableRel entryLe := fun _ _ => Bool.decEq _ _

instance : IsTrans FsEntry entryLe where
  trans := by
    intro a b c
    unfold entryLe strLeB
    generalize (childName a).data = x
    generalize (childName b).data = y
    generalize (childName c).data = z
    induction x generalizing y z with
    | nil => intro _ _; rfl
    | cons xc xs ih =>
      intro hab hbc
      cases y with
      | nil => simp [charListLe] at hab
      | cons yc ys =>
        cases z with
        | nil => simp [charListLe] at hbc
        | cons zc zs =>
          simp only [charListLe, Bool.or_eq_true, Bool.and_eq_true,
            decide_eq_true_eq] at hab hbc ⊢
          rcases hab with h1 | ⟨h1, h1r⟩ <;> rcases hbc with h2 | ⟨h2, h2r⟩
          · exact Or.inl (by omega)
          · exact Or.inl (by omega)
          · exact Or.inl (by omega)
          · exact Or.inr ⟨by omega, ih ys zs h1r h2r⟩

instance : IsTotal FsEntry entryLe where
  total := by
    intro a b
    unfold entryLe strLeB
    generalize (childName a).data = x
    generalize (childName b).data = y
    induction x generalizing y with
    | nil => exact Or.inl rfl
    | cons xc xs ih =>
      cases y with
      | nil => exact Or.inr rfl
      | cons yc ys =>
        simp only [charListLe, Bool.or_eq_true, Bool.and_eq_true,
          decide_eq_true_eq]
        by_cases hxy : xc.toNat = yc.toNat
        · rcases ih ys with h | h
          · exact Or.inl (Or.inr ⟨hxy, h⟩)
          · exact Or.inr (Or.inr ⟨hxy.symm, h⟩)
        · by_cases hlt : xc.toNat < yc.toNat
          · exact Or.inl (Or.inl hlt)
          · exact Or.inr (Or.inl (by omega))

/-- Membership of an entry in the recursive glob of the child named `n`:
any strict descendant of that child (file or directory). -/
def underChild (n : String) (e : FsEntry) : Bool :=
  childName e = n && 2 ≤ e.path.length

/-- `audio_files = [f for f in entry.rglob("*") if f.suffix.lower() in
AUDIO_EXTENSIONS]` is nonempty. -/
def hasAudioEntry (fs : List FsEntry) (n : String) : Bool :=
  fs.any (fun e => underChild n e && audioMatch (e.path.getLastD ""))

/-- The per-entry test of the discovery loop: keep directories whose name
is not dot-prefixed and whose recursive glob contains an allow-listed
suffix. -/
def discoveryKeep (fs : List FsEntry) (e : FsEntry) : Bool :=
  e.isDir && !startsDot (childName e) && hasAudioEntry fs (childName e)

/-- `SpeakerAnalysisOrchestrator.discover_speaker_folders` (lines 65-77):
iterate the sorted children, skip non-directories and dot-prefixed names,
keep those with at least one recursively found allow-listed suffix. -/
def discover_speaker_folders (fs : List FsEntry) : List String :=
  ((List.insertionSort entryLe (childEntries fs)).filter
    (discoveryKeep fs)).map childName

/-! ## Configuration and SLURM script generation -/

/-- `ContainerConfig` from `submit_slurm.py` (paths kept as strings). -/
structure ContainerConfig where
  repo_root : String
  whisperx_image : String
  ollama_image : String
  ollama_model : String
  partition : String
  gpus_per_job : Nat
  mem_gb : Nat
  time_limit : String
  account : Option String
  qos : Option String
deriving DecidableEq, Repr

/-- `account_line` (line 89): emitted only for a truthy account. -/
def account_line (cfg : ContainerConfig) : String :=
  if optTruthy cfg.account then "#SBATCH --account=" ++ cfg.account.getD ""
  else ""

/-- `qos_line` (lines 92-100): an explicit truthy QoS wins; otherwise,
with a truthy account and a partition starting with `gpu-`, the QoS is
derived as `{account}-gpu-{partition.replace("gpu-", "")}`; otherwise the
line is empty. -/
def qos_line (cfg : ContainerConfig) : String :=
  if optTruthy cfg.qos then "#SBATCH --qos=" ++ cfg.qos.getD ""
  else if optTruthy cfg.account && strStartsWith cfg.partition "gpu-" then
    "#SBATCH --qos=" ++ cfg.account.getD "" ++ "-gpu-" ++
      strReplace cfg.partition "gpu-" ""
  else ""

/-- The rendered script text from the start of the template (line 102) up
to and including `export HF_TOKEN="`; the credential is spliced right
after this prefix. -/
def scriptBeforeToken (cfg : ContainerConfig) (basePath folderName : String) :
    String :=
  let job_name := folderName ++ "_pipeline"
  "#!/bin/bash\n" ++
  "#SBATCH --job-name=" ++ job_name ++ "\n" ++
  "#SBATCH --partition=" ++ cfg.partition ++ "\n" ++
  "#SBATCH --nodes=1\n" ++
  "#SBATCH --cpus-per-task=4\n" ++
  "#SBATCH --gpus=" ++ toString cfg.gpus_per_job ++ "\n" ++
  "#SBATCH --mem=" ++ toString cfg.mem_gb ++ "G\n" ++
  "#SBATCH --time=" ++ cfg.time_limit ++ "\n" ++
  "#SBATCH --output=" ++ basePath ++ "/logs/" ++ job_name ++ "_%j.out\n" ++
  "#SBATCH --error=" ++ basePath ++ "/logs/" ++ job_name ++ "_%j.err\n" ++
  "#SBATCH --mail-type=END,FAIL\n" ++
  account_line cfg ++ "\n" ++
  qos_line cfg ++ "\n" ++
  "\nset -euo pipefail\n\nmodule load apptainer\n\nexport HF_TOKEN=\""

/-- The rendered script text from the closing quote of the `HF_TOKEN`
export line (line 120) to the end of the template (line 204), with the
configuration values spliced in as the f-string does. -/
def scriptAfterToken (cfg : ContainerConfig) (basePath folderName : String) :
    String :=
  "\"\n" ++
  "export PYTHONUNBUFFERED=1\n\n" ++
  "REPO_ROOT=\"" ++ cfg.repo_root ++ "\"\n" ++
  "BASE_DIR=\"" ++ basePath ++ "\"\n" ++
  "SPEAKER_DIR=\"" ++ basePath ++ "/" ++ folderName ++ "\"\n" ++
  "WHISPERX_IMAGE=\"" ++ cfg.whisperx_image ++ "\"\n" ++
  "OLLAMA_IMAGE=\"" ++ cfg.ollama_image ++ "\"\n" ++
  "OLLAMA_MODEL=\"" ++ cfg.ollama_model ++ "\"\n\n" ++
  "mkdir -p \"$BASE_DIR/logs\"\n\n" ++
  "# Run WhisperX transcription\n" ++
  "apptainer exec --nv \\\n" ++
  "  --env LD_LIBRARY_PATH=/usr/local/lib/python3.10/dist-packages/nvidia/cudnn/lib \\\n" ++
  "  --bind \"$REPO_ROOT:$REPO_ROOT\" \\\n" ++
  "  --bind \"$BASE_DIR:$BASE_DIR\" \\\n" ++
  "  \"$WHISPERX_IMAGE\" \\\n" ++
  "  python3 \"$REPO_ROOT/transcribe_calls.py\" \"$SPEAKER_DIR\" --device cuda\n\n" ++
  "# Launch Ollama-backed analysis\n" ++
  "apptainer exec --nv \\\n" ++
  "  --bind \"$REPO_ROOT:$REPO_ROOT\" \\\n" ++
  "  --bind \"$BASE_DIR:$BASE_DIR\" \\\n" ++
  "  --bind \"$HOME/.ollama:$HOME/.ollama\" \\\n" ++
  "  \"$OLLAMA_IMAGE\" \\\n" ++
  "  bash <<ANALYZE\n" ++
  "set -eo pipefail\n" ++
  "export OLLAMA_HOST=\"127.0.0.1:11434\"\n" ++
  "export no_proxy=\"localhost,127.0.0.1\"\n" ++
  "export NO_PROXY=\"localhost,127.0.0.1\"\n" ++
  "unset http_proxy\n" ++
  "unset https_proxy\n" ++
  "unset HTTP_PROXY\n" ++
  "unset HTTPS_PROXY\n\n" ++
  "# Start Ollama server with proper error handling\n" ++
  "ollama serve >/tmp/ollama.log 2>&1 &\n" ++
  "OLLAMA_PID=\\$!\n" ++
  "set -u\n\n" ++
  "# Check if Ollama started successfully\n" ++
  "if [[ -n \"\\$OLLAMA_PID\" ]] && kill -0 \"\\$OLLAMA_PID\" 2>/dev/null; then\n" ++
  "    echo \"Ollama server started with PID: \\$OLLAMA_PID\"\n" ++
  "    trap \x27kill \\$OLLAMA_PID 2>/dev/null || true\x27 EXIT\n\n" ++
  "    # Wait for Ollama to be ready (up to 60 seconds)\n" ++
  "    echo \"Waiting for Ollama server to be ready...\"\n" ++
  "    for i in \x7b1..12\x7d; do\n" ++
  "        if curl -s http://127.0.0.1:11434/api/tags >/dev/null 2>&1; then\n" ++
  "            echo \"Ollama server is ready\"\n" ++
  "            break\n" ++
  "        fi\n" ++
  "        echo \"  Attempt \\$i/12: waiting...\"\n" ++
  "        sleep 5\n" ++
  "    done\n\n" ++
  "    # Check if model exists, pull only if necessary\n" ++
  "    echo \"Checking for model: $OLLAMA_MODEL\"\n" ++
  "    if ! ollama list | grep -q \"$OLLAMA_MODEL\"; then\n" ++
  "        echo \"Model not found, pulling: $OLLAMA_MODEL\"\n" ++
  "        ollama pull \"$OLLAMA_MODEL\"\n" ++
  "    else\n" ++
  "        echo \"Model already available: $OLLAMA_MODEL\"\n" ++
  "    fi\n\n" ++
  "    # Verify model is in the list\n" ++
  "    ollama list\n\n" ++
  "    # Warm up the model with a test request to load it into GPU memory\n" ++
  "    echo \"Warming up model...\"\n" ++
  "    echo \x27\x7b\"model\": \"$OLLAMA_MODEL\", \"prompt\": \"Hello\", \"stream\": false\x7d\x27 | \\\n" ++
  "        curl -s -X POST http://127.0.0.1:11434/api/generate -d @- > /dev/null\n" ++
  "    echo \"Model warmed up and ready\"\n\n" ++
  "    # Run the analysis\n" ++
  "    python3 \"$REPO_ROOT/analyze_with_ollama.py\" \"$SPEAKER_DIR\" --model \"$OLLAMA_MODEL\"\n" ++
  "else\n" ++
  "    echo \"Failed to start Ollama server, skipping analysis\" >&2\n" ++
  "    exit 1\n" ++
  "fi\n" ++
  "ANALYZE\n\n" ++
  "echo \"Pipeline completed for " ++ folderName ++ "\"\n"

/-- The full rendered script of `create_slurm_job_script` (lines 102-204):
the prefix, the spliced credential, and the remainder. -/
def scriptContent (cfg : ContainerConfig) (basePath folderName hfToken : String) :
    String :=
  scriptBeforeToken cfg basePath folderName ++ hfToken ++
    scriptAfterToken cfg basePath folderName

/-- The deterministic script path `self.base_dir / f"{job_name}.slurm"`
(line 83). -/
def scriptPath (basePath folderName : String) : String :=
  basePath ++ "/" ++ folderName ++ "_pipeline.slurm"

/-- `SpeakerAnalysisOrchestrator.create_slurm_job_script` (lines 81-207)
as a transformer of the on-disk file map: it writes the rendered content
at the deterministic path (overwriting any previous file there) and
returns the path. -/
def create_slurm_job_script (cfg : ContainerConfig)
    (basePath hfToken folderName : String) (fileMap : String → Option String) :
    String × (String → Option String) :=
  let path := scriptPath basePath folderName
  (path, fun p =>
    if p = path then some (scriptContent cfg basePath folderName hfToken)
    else fileMap p)

/-! ## Job submission -/

/-- `SpeakerAnalysisOrchestrator.submit_slurm_job` (lines 211-227) with
the `sbatch` invocation supplied as an oracle: `Except.error stderr`
models a `CalledProcessError` (non-zero exit), in which case the failure
is logged and `None` is returned; on success the trailing
whitespace-delimited token of standard output is the job identifier. -/
def submit_slurm_job (sbatchResult : Except String String) : Option String :=
  match sbatchResult with
  | Except.error _ => none
  | Except.ok out => (splitWs out).getLast?

/-- The environment handed to the `sbatch` subprocess (lines 212-213):
a copy of the ambient environment with `HF_TOKEN` set to the credential. -/
def submitEnv (ambient : List (String × String)) (hfToken : String) :
    List (String × String) :=
  ambient.filter (fun kv => kv.1 ≠ "HF_TOKEN") ++ [("HF_TOKEN", hfToken)]

/-! ## Job monitoring -/

/-- Result of the monitoring loop: how many `squeue -j <id>` probes were
issued, and after how many cycles the loop exited (`none` when the given
fuel ran out while some job was still reported active). -/
structure MonitorResult where
  probes : Nat
  cycles : Option Nat
deriving DecidableEq, Repr

/-- The `while True` loop of `monitor_jobs` (lines 238-254): in cycle
`n`, every submitted identifier is probed once; a job is active when its
probe has return code 0 and nonempty stdout, modelled by the oracle
`active n job = true`.  The loop exits right after the first cycle in
which no identifier is active. -/
def monitorLoop (active : Nat → String → Bool) (jobIds : List String) :
    Nat → Nat → Option Nat
  | _, 0 => none
  | n, fuel + 1 =>
    if (jobIds.filter (active n)).isEmpty then some (n + 1)
    else monitorLoop active jobIds (n + 1) fuel

/-- `SpeakerAnalysisOrchestrator.monitor_jobs` (lines 231-254): with no
submitted identifiers it returns before the loop, issuing no probe;
otherwise it runs the poll loop, each cycle issuing one probe per
identifier. -/
def monitor_jobs (active : Nat → String → Bool) (jobIds : List String)
    (fuel : Nat) : MonitorResult :=
  if jobIds.isEmpty then MonitorResult.mk 0 (some 0)
  else
    match monitorLoop active jobIds 0 fuel with
    | some c => MonitorResult.mk (c * jobIds.length) (some c)
    | none => MonitorResult.mk (fuel * jobIds.length) none

/-! ## Result organisation -/

/-- One value of the result manifest: the fields of `payload` that
`organise_results` reads.  A missing `score` key makes
`payload.get("score", 0)` return `0`; a missing `audio_file` key makes
`payload.get("audio_file", transcription_file)` fall back to the
transcript file name. -/
structure Payload where
  score : Option Int
  audio_file : Option String
deriving DecidableEq, Repr

/-- The two destination trees of the Result Organizer. -/
inductive Dest where
  | needs_further_attention
  | reviewed
deriving DecidableEq, Repr

/-- Directory name of a destination tree. -/
def Dest.dirName : Dest → String
  | .needs_further_attention => "needs_further_attention"
  | .reviewed => "reviewed"

/-- Line 276: `destination_root = needs_attention if score <
self.score_threshold else reviewed`. -/
def routeDest (score threshold : Int) : Dest :=
  if score < threshold then Dest.needs_further_attention else Dest.reviewed

/-- The values the loop body of `organise_results` (lines 271-278)
derives from one manifest entry. -/
structure RoutedRecord where
  transcription_file : String
  payload : Payload
  score : Int
  audioName : String
  callId : String
  dest : Dest
deriving DecidableEq, Repr

/-- Lines 272-277 for a single manifest entry `(transcription_file,
payload)`. -/
def organiseRecord (threshold : Int) (tf : String) (p : Payload) :
    RoutedRecord :=
  let score := p.score.getD 0
  let audioName := p.audio_file.getD tf
  let callId := pathStem (lastComponent audioName)
  RoutedRecord.mk tf p score audioName callId (routeDest score threshold)

/-- Filesystem side effects of the Result Organizer, in program order. -/
inductive FsEffect where
  | mkdirExistOk (path : String)
  | mkdirParents (path : String)
  | copyFile (src dst : String)
  | writeFile (path : String)
deriving DecidableEq, Repr

/-- Lines 278-287 for one routed record: create the per-call directory,
copy the audio file and each sibling artifact that exists, and write the
single-entry per-call manifest.  `isFile p` models
`Path(p).exists() and Path(p).is_file()` from `_copy_if_exists`. -/
def recordEffects (folder : String) (isFile : String → Bool)
    (r : RoutedRecord) : List FsEffect :=
  let audioPath := folder ++ "/" ++ r.audioName
  let targetDir := folder ++ "/" ++ r.dest.dirName ++ "/" ++ r.callId
  FsEffect.mkdirParents targetDir ::
    ((if isFile audioPath then
        [FsEffect.copyFile audioPath
          (targetDir ++ "/" ++ lastComponent audioPath)]
      else []) ++
     ([".vtt", ".srt", ".txt", ".json"].flatMap (fun suffix =>
        let candidate := folder ++ "/" ++ r.callId ++ suffix
        if isFile candidate then
          [FsEffect.copyFile candidate (targetDir ++ "/" ++ r.callId ++ suffix)]
        else [])) ++
     [FsEffect.writeFile (targetDir ++ "/analysis_results.json")])

/-- `SpeakerAnalysisOrchestrator.organise_results` (lines 258-289): the
manifest (`analysis_results.json`) is `none` when the file does not
exist, in which case the method logs and returns with no effect at all;
otherwise it creates the two destination roots and processes every
manifest entry in order. -/
def organise_results (threshold : Int) (folder : String)
    (manifest : Option (List (String × Payload))) (isFile : String → Bool) :
    List FsEffect :=
  match manifest with
  | none => []
  | some entries =>
    FsEffect.mkdirExistOk (folder ++ "/needs_further_attention") ::
    FsEffect.mkdirExistOk (folder ++ "/reviewed") ::
    entries.flatMap (fun e => recordEffects folder isFile
      (organiseRecord threshold e.1 e.2))

/-- The routed records produced by `organise_results` for a manifest
(empty when the manifest file is missing). -/
def organiseRouted (threshold : Int)
    (manifest : Option (List (String × Payload))) : List RoutedRecord :=
  match manifest with
  | none => []
  | some entries => entries.map (fun e => organiseRecord threshold e.1 e.2)

/-- The organisation pass of `run` (lines 314-315): `organise_results`
for every discovered folder, in order. -/
def organiseAll (threshold : Int) (folders : List String)
    (manifest : String → Option (List (String × Payload)))
    (isFile : String → Bool) : List FsEffect :=
  folders.flatMap (fun f => organise_results threshold f (manifest f) isFile)

/-! ## High-level orchestration -/

/-- Observable trace of `SpeakerAnalysisOrchestrator.run` (lines
298-315). `baseDirCreated` records whether `base_dir.mkdir(parents=True,
exist_ok=True)` had to create a missing base directory; `jobIds` is
`self.job_ids`, the list handed to `monitor_jobs`; `organised` is the
list of folders passed to `organise_results`.  `exitCode` is the process
exit status of a run that returns normally. -/
structure RunTrace where
  baseDirCreated : Bool
  discovered : List String
  scripts : List String
  jobIds : List String
  organised : List String
  exitCode : Nat
deriving DecidableEq, Repr

/-- `SpeakerAnalysisOrchestrator.run` (lines 298-315): create the base
directory if missing (`baseDir = none` models a non-existent base
directory, which `mkdir(parents=True, exist_ok=True)` silently creates as
empty), discover folders, return early when none were found, otherwise
generate a script and attempt submission per folder (appending the job
identifier only when truthy), then monitor and finally organise every
discovered folder.  The method raises nothing, so a completed run exits
with code 0. -/
def run (basePath : String) (baseDir : Option (List FsEntry))
    (submit : String → Option String) : RunTrace :=
  let folders := discover_speaker_folders (baseDir.getD [])
  if folders.isEmpty then
    RunTrace.mk baseDir.isNone folders [] [] [] 0
  else
    RunTrace.mk baseDir.isNone folders
      (folders.map (scriptPath basePath))
      (folders.filterMap (fun f => truthyOpt (submit f)))
      folders 0

/-- The image-path checks of `main` (lines 395-400): a missing or
non-existent WhisperX or Ollama image path raises `SystemExit` with a
descriptive message (exit code 1) before the orchestrator is even
constructed. -/
def mainImageGate (whisperxImage ollamaImage : Option String)
    (pathExists : String → Bool) : Except String Unit :=
  if (match whisperxImage with
      | none => true
      | some p => !pathExists p) then
    Except.error
      "WhisperX image path must be provided (via --whisperx-image or WHISPERX_IMAGE)"
  else if (match ollamaImage with
      | none => true
      | some p => !pathExists p) then
    Except.error
      "Ollama image path must be provided (via --ollama-image or OLLAMA_IMAGE)"
  else Except.ok ()

/-! ## Concrete fixtures used by witnesses and counterexamples -/

/-- A representative configuration (defaults of `submit_slurm.py` with an
account). -/
def cfgExample : ContainerConfig :=
  ContainerConfig.mk "/repo" "/images/whisperx.sif" "/images/ollama.sif"
    "deepseek-r1:32b" "gpu-rtx6k" 1 81 "02:00:00" (some "proj1") none

/-- A configuration whose partition contains `gpu-` twice. -/
def cfgGpuGpu : ContainerConfig :=
  ContainerConfig.mk "/repo" "/images/whisperx.sif" "/images/ollama.sif"
    "deepseek-r1:32b" "gpu-gpu-a100" 1 81 "02:00:00" (some "proj1") none

/-- The QoS line the spec sentence describes, with "the partition's
suffix" read as the partition minus its leading `gpu-` (4 characters). -/
def specSuffixQosLine (account partitionName : String) : String :=
  "#SBATCH --qos=" ++ account ++ "-gpu-" ++
    String.mk (partitionName.data.drop 4)

/-- Fixture tree: three qualifying sibling agent directories. -/
def fsThree : List FsEntry :=
  [FsEntry.mk ["agentA"] true, FsEntry.mk ["agentA", "a.mp3"] false,
   FsEntry.mk ["agentB"] true, FsEntry.mk ["agentB", "b.wav"] false,
   FsEntry.mk ["agentC"] true, FsEntry.mk ["agentC", "c.mp3"] false]

/-- A submission oracle that fails exactly for `agentB`. -/
def submitEx : String → Option String :=
  fun f => if f = "agentB" then none else some "77"

/-- Fixture tree: a subdirectory whose only descendant is a *directory*
named like an audio file. -/
def fsDirNamedMp3 : List FsEntry :=
  [FsEntry.mk ["agent"] true, FsEntry.mk ["agent", "weird.mp3"] true]

/-- A manifest record with a below-threshold score. -/
def payloadLow : Payload := Payload.mk (some 74) (some "call1.mp3")

/-- A manifest record with the same score and no audio file name. -/
def payloadLow2 : Payload := Payload.mk (some 74) none

/-- A manifest record lacking both optional fields. -/
def payloadBare : Payload := Payload.mk none none

/-- A manifest oracle: `agentB` has no `analysis_results.json`. -/
def manifestEx : String → Option (List (String × Payload)) :=
  fun f => if f = "agentB" then none else some [("call1.json", payloadLow)]

/-- A file-existence oracle for a tree with no sibling artifacts. -/
def isFileNone : String → Bool := fun _ => false

/-! ## Claim theorems -/

/-- C1: for every manifest record with a numeric score `s` and threshold
`t`, the destination is `needs_further_attention` iff `s < t` and
`reviewed` iff `s ≥ t`, and the destination depends only on `s` and `t`
(any record with the same score is routed identically). -/
theorem routing_is_pure_threshold (t : Int) (tf : String) (p : Payload)
    (s : Int) (hs : p.score = some s) :
    ((organiseRecord t tf p).dest = Dest.needs_further_attention ↔ s < t) ∧
    ((organiseRecord t tf p).dest = Dest.reviewed ↔ t ≤ s) ∧
    (∀ tf2 p2, p2.score = some s →
      (organiseRecord t tf2 p2).dest = (organiseRecord t tf p).dest) := by
  have hdest : ∀ tf' (p' : Payload), p'.score = some s →
      (organiseRecord t tf' p').dest = routeDest s t := by
    intro tf' p' h'
    simp [organiseRecord, h']
  rw [hdest tf p hs]
  refine ⟨?_, ?_, ?_⟩
  · unfold routeDest
    by_cases h : s < t <;> simp [h]
  · unfold routeDest
    by_cases h : s < t
    · simp [h]
    · simp [h]
      omega
  · intro tf2 p2 h2
    rw [hdest tf2 p2 h2]

/-- C1 witness: at threshold 75, a record with score 74 is routed to
`needs_further_attention`, and another record with the same score gets
the same destination. -/
theorem routing_is_pure_threshold_witness :
    payloadLow.score = some 74 ∧
    (organiseRecord 75 "call1.json" payloadLow).dest =
      Dest.needs_further_attention ∧
    ((organiseRecord 75 "call1.json" payloadLow).dest =
      Dest.needs_further_attention ↔ (74 : Int) < 75) ∧
    ((organiseRecord 75 "call1.json" payloadLow).dest = Dest.reviewed ↔
      (75 : Int) ≤ 74) ∧
    (organiseRecord 75 "other.json" payloadLow2).dest =
      (organiseRecord 75 "call1.json" payloadLow).dest := by
  refine ⟨rfl, by decide, ?_, ?_, ?_⟩
  · exact (routing_is_pure_threshold 75 "call1.json" payloadLow 74 rfl).1
  · exact (routing_is_pure_threshold 75 "call1.json" payloadLow 74 rfl).2.1
  · exact (routing_is_pure_threshold 75 "call1.json" payloadLow 74 rfl).2.2
      "other.json" payloadLow2 rfl

/-- C10: a record lacking `score` is scored 0 and hence routed to
`needs_further_attention` for any positive threshold; a record lacking
`audio_file` uses the transcript file name as the audio name and derives
the per-call directory identifier from it. -/
theorem missing_manifest_fields_defaults (t : Int) (tf : String)
    (p : Payload) (ht : 0 < t) :
    (p.score = none →
      (organiseRecord t tf p).score = 0 ∧
      (organiseRecord t tf p).dest = Dest.needs_further_attention) ∧
    (p.audio_file = none →
      (organiseRecord t tf p).audioName = tf ∧
      (organiseRecord t tf p).callId = pathStem (lastComponent tf)) := by
  constructor
  · intro hs
    constructor
    · simp [organiseRecord, hs]
    · simp [organiseRecord, hs, routeDest, ht]
  · intro ha
    constructor
    · simp [organiseRecord, ha]
    · simp [organiseRecord, ha]

/-- C10 witness: a record with neither field, at threshold 75. -/
theorem missing_manifest_fields_defaults_witness :
    (0 : Int) < 75 ∧
    payloadBare.score = none ∧ payloadBare.audio_file = none ∧
    (organiseRecord 75 "call7.json" payloadBare).score = 0 ∧
    (organiseRecord 75 "call7.json" payloadBare).dest =
      Dest.needs_further_attention ∧
    (organiseRecord 75 "call7.json" payloadBare).audioName = "call7.json" ∧
    (organiseRecord 75 "call7.json" payloadBare).callId = "call7" := by
  have h := missing_manifest_fields_defaults 75 "call7.json" payloadBare
    (by decide)
  refine ⟨by decide, rfl, rfl, (h.1 rfl).1, (h.1 rfl).2, (h.2 rfl).1, ?_⟩
  exact ((h.2 rfl).2).trans (by decide)

/-- C9: script generation is deterministic and idempotent — generating a
second time for the same WorkUnit and configuration returns the same
deterministically named path and leaves the file map unchanged, the file
at that path holding the rendered content. -/
theorem script_generation_idempotent (cfg : ContainerConfig)
    (basePath hfToken folderName : String)
    (fileMap : String → Option String) :
    (create_slurm_job_script cfg basePath hfToken folderName
        (create_slurm_job_script cfg basePath hfToken folderName fileMap).2).1
      = (create_slurm_job_script cfg basePath hfToken folderName fileMap).1 ∧
    (create_slurm_job_script cfg basePath hfToken folderName
        (create_slurm_job_script cfg basePath hfToken folderName fileMap).2).2
      = (create_slurm_job_script cfg basePath hfToken folderName fileMap).2 ∧
    (create_slurm_job_script cfg basePath hfToken folderName fileMap).2
        (scriptPath basePath folderName)
      = some (scriptContent cfg basePath folderName hfToken) := by
  refine ⟨rfl, ?_, by simp [create_slurm_job_script]⟩
  funext p
  by_cases h : p = scriptPath basePath folderName <;>
    simp [create_slurm_job_script, h]

/-- C3: the claim that the generated script's byte content is identical
for any two credential values is false — the template writes the
credential into the script via `export HF_TOKEN="..."` (line 120), so two
different tokens yield different script bytes on disk. -/
theorem hf_token_written_into_script :
    scriptContent cfgExample "/data/base" "agent1" "hf_secret_a" ≠
      scriptContent cfgExample "/data/base" "agent1" "hf_secret_bb" := by
  intro h
  have hlen := congrArg String.length h
  simp only [scriptContent, String.length_append] at hlen
  have h1 : ("hf_secret_a" : String).length = 11 := by decide
  have h2 : ("hf_secret_bb" : String).length = 12 := by decide
  omega

/-- C6 counterexample: for partition `gpu-gpu-a100` with account `proj1`
and no explicit QoS, the code derives `proj1-gpu-a100` (Python
`str.replace` removes *every* occurrence of `gpu-`), not the
`proj1-gpu-gpu-a100` that "account joined with the partition's suffix"
prescribes. -/
theorem qos_suffix_claim_counterexample :
    qos_line cfgGpuGpu = "#SBATCH --qos=proj1-gpu-a100" ∧
    specSuffixQosLine "proj1" "gpu-gpu-a100" =
      "#SBATCH --qos=proj1-gpu-gpu-a100" ∧
    qos_line cfgGpuGpu ≠ specSuffixQosLine "proj1" "gpu-gpu-a100" := by
  decide

/-- C6 (amended): an explicit truthy QoS is used verbatim; with no QoS
but a truthy account and a partition starting with `gpu-`, the derived
QoS is the account joined via `-gpu-` with the partition with every
occurrence of `gpu-` removed (which is the partition's suffix whenever
`gpu-` occurs only as the leading prefix); otherwise no QoS line is
emitted. -/
theorem qos_line_cases (repo wx ol model part tl : String) (g m : Nat)
    (acct : String) (ha : acct ≠ "")
    (hp : strStartsWith part "gpu-" = true) :
    qos_line (ContainerConfig.mk repo wx ol model part g m tl
        (some acct) none) =
      "#SBATCH --qos=" ++ acct ++ "-gpu-" ++ strReplace part "gpu-" "" ∧
    (∀ q, q ≠ "" →
      qos_line (ContainerConfig.mk repo wx ol model part g m tl
          (some acct) (some q)) = "#SBATCH --qos=" ++ q) ∧
    (∀ part2, qos_line (ContainerConfig.mk repo wx ol model part2 g m tl
        none none) = "") ∧
    (∀ part2, strStartsWith part2 "gpu-" = false →
      qos_line (ContainerConfig.mk repo wx ol model part2 g m tl
          (some acct) none) = "") := by
  have hae : acct.isEmpty = false := by
    rcases he : acct.isEmpty with _ | _
    · rfl
    · exact absurd ((String.isEmpty_iff _).mp he) ha
  refine ⟨?_, ?_, ?_, ?_⟩
  · simp [qos_line, optTruthy, hae, hp]
  · intro q hq
    have hqe : q.isEmpty = false := by
      rcases he : q.isEmpty with _ | _
      · rfl
      · exact absurd ((String.isEmpty_iff _).mp he) hq
    simp [qos_line, optTruthy, hqe]
  · intro part2
    simp [qos_line, optTruthy]
  · intro part2 hp2
    simp [qos_line, optTruthy, hae, hp2]

/-- C6 witness: the spec's own example — account `proj1`, partition
`gpu-rtx6k`, no explicit QoS derives `proj1-gpu-rtx6k`; an explicit QoS
overrides; no account and no QoS emits nothing. -/
theorem qos_line_cases_witness :
    ("proj1" : String) ≠ "" ∧
    strStartsWith "gpu-rtx6k" "gpu-" = true ∧
    qos_line (ContainerConfig.mk "/r" "/w" "/o" "m" "gpu-rtx6k" 1 81
        "02:00:00" (some "proj1") none) =
      "#SBATCH --qos=proj1-gpu-rtx6k" ∧
    qos_line (ContainerConfig.mk "/r" "/w" "/o" "m" "gpu-rtx6k" 1 81
        "02:00:00" (some "proj1") (some "custom-qos")) =
      "#SBATCH --qos=custom-qos" ∧
    qos_line (ContainerConfig.mk "/r" "/w" "/o" "m" "gpu-rtx6k" 1 81
        "02:00:00" none none) = "" := by
  have h := qos_line_cases "/r" "/w" "/o" "m" "gpu-rtx6k" "02:00:00" 1 81
    "proj1" (by decide) (by decide)
  refine ⟨by decide, by decide, ?_, ?_, ?_⟩
  · exact h.1.trans (by decide)
  · exact h.2.1 "custom-qos" (by decide)
  · exact h.2.2.1 "gpu-rtx6k"

/-- Auxiliary fact for C7: once a poll cycle reports no active
identifier, the loop returns within that cycle; starting at cycle `m`
with the empty cycle at `m + n` and more than `n` fuel, it returns after
at most `m + n + 1` cycles. -/
theorem monitorLoop_stops (active : Nat → String → Bool)
    (jobIds : List String) :
    ∀ fuel m n, (jobIds.filter (active (m + n))).isEmpty = true →
      n < fuel →
      ∃ c, monitorLoop active jobIds m fuel = some c ∧ c ≤ m + n + 1 := by
  intro fuel
  induction fuel with
  | zero => intro m n _ h; omega
  | succ fuel ih =>
    intro m n hempty hn
    by_cases h0 : (jobIds.filter (active m)).isEmpty = true
    · exact ⟨m + 1, by simp [monitorLoop, h0], by omega⟩
    · have hne : n ≠ 0 := by
        intro h
        rw [h, Nat.add_zero] at hempty
        exact h0 hempty
      have heq : m + 1 + (n - 1) = m + n := by omega
      obtain ⟨c, hc, hcle⟩ := ih (m + 1) (n - 1) (by rw [heq]; exact hempty)
        (by omega)
      exact ⟨c, by simp [monitorLoop, h0, hc], by omega⟩

/-- C7: with no submitted identifiers the monitor returns immediately
without a single status probe; when the scheduler reports every
identifier inactive on the first poll, it returns after exactly one
cycle (one probe per identifier); in general it terminates as soon as
some cycle finds no active identifier. -/
theorem monitor_termination (active : Nat → String → Bool)
    (jobIds : List String) (fuel n : Nat) :
    monitor_jobs active [] fuel = MonitorResult.mk 0 (some 0) ∧
    (jobIds ≠ [] → 0 < fuel → (∀ j ∈ jobIds, active 0 j = false) →
      monitor_jobs active jobIds fuel =
        MonitorResult.mk jobIds.length (some 1)) ∧
    ((jobIds.filter (active n)).isEmpty = true → n < fuel →
      ∃ c, (monitor_jobs active jobIds fuel).cycles = some c ∧
        c ≤ n + 1) := by
  refine ⟨rfl, ?_, ?_⟩
  · intro hne hfuel hinactive
    have hempty : jobIds.filter (active 0) = [] := by
      rw [List.filter_eq_nil_iff]
      intro j hj
      simp [hinactive j hj]
    have hje : jobIds.isEmpty = false := by
      rcases he : jobIds.isEmpty with _ | _
      · rfl
      · exact absurd (List.isEmpty_iff.mp he) hne
    obtain ⟨fuel', rfl⟩ : ∃ f, fuel = f + 1 :=
      ⟨fuel - 1, by omega⟩
    simp [monitor_jobs, hje, monitorLoop, hempty]
  · intro hempty hn
    by_cases hnil : jobIds = []
    · subst hnil
      exact ⟨0, rfl, by omega⟩
    · have hje : jobIds.isEmpty = false := by
        rcases he : jobIds.isEmpty with _ | _
        · rfl
        · exact absurd (List.isEmpty_iff.mp he) hnil
      obtain ⟨c, hc, hcle⟩ := monitorLoop_stops active jobIds fuel 0 n
        (by simpa using hempty) hn
      refine ⟨c, ?_, by omega⟩
      simp [monitor_jobs, hje, hc]

/-- C7 witness: two identifiers both inactive on the first poll — exactly
one cycle with two probes; empty set — immediate return with none. -/
theorem monitor_termination_witness :
    (["123", "456"] : List String) ≠ [] ∧ 0 < 5 ∧
    monitor_jobs (fun _ _ => false) ["123", "456"] 5 =
      MonitorResult.mk 2 (some 1) ∧
    monitor_jobs (fun _ _ => false) [] 5 = MonitorResult.mk 0 (some 0) := by
  refine ⟨by decide, by decide, ?_, ?_⟩
  · exact (monitor_termination (fun _ _ => false) ["123", "456"] 5 0).2.1
      (by decide) (by decide) (by decide)
  · exact (monitor_termination (fun _ _ => false) ["123", "456"] 5 0).1

/-- C8: a WorkUnit whose `analysis_results.json` is missing produces no
filesystem effect at all (no directories, no copies, no per-call
manifest) and no routed records, and skipping it does not disturb the
organisation of the other WorkUnits in the pass. -/
theorem organise_missing_manifest_skips (t : Int) (folder : String)
    (isFile : String → Bool)
    (manifest : String → Option (List (String × Payload)))
    (h : manifest folder = none) (folders1 folders2 : List String) :
    organise_results t folder (manifest folder) isFile = [] ∧
    organiseRouted t (manifest folder) = [] ∧
    organiseAll t (folders1 ++ folder :: folders2) manifest isFile =
      organiseAll t folders1 manifest isFile ++
        organiseAll t folders2 manifest isFile := by
  rw [h]
  refine ⟨rfl, rfl, ?_⟩
  simp [organiseAll, organise_results, h]

/-- C8 witness: `agentB` has no manifest; organising the batch
`[agentA, agentB, agentC]` equals organising `[agentA]` and `[agentC]`
and `agentB` alone contributes nothing. -/
theorem organise_missing_manifest_skips_witness :
    manifestEx "agentB" = none ∧
    organise_results 75 "agentB" (manifestEx "agentB") isFileNone = [] ∧
    organiseRouted 75 (manifestEx "agentB") = [] ∧
    organiseAll 75 (["agentA"] ++ "agentB" :: ["agentC"]) manifestEx
        isFileNone =
      organiseAll 75 ["agentA"] manifestEx isFileNone ++
        organiseAll 75 ["agentC"] manifestEx isFileNone := by
  have h := organise_missing_manifest_skips 75 "agentB" isFileNone
    manifestEx rfl ["agentA"] ["agentC"]
  exact ⟨rfl, h.1, h.2.1, h.2.2⟩

/-- C2: a failed `sbatch` yields no identifier; the run submits every
discovered unit regardless of earlier failures, monitors exactly the
identifiers of the successful submissions, generates a script for every
discovered unit, and passes every discovered unit (failed ones included)
to the organisation pass.  The hypothesis reflects that a successful
`sbatch` parse always yields a nonempty token. -/
theorem submission_failure_isolation (basePath : String)
    (baseDir : Option (List FsEntry)) (submit : String → Option String)
    (hids : ∀ f j, submit f = some j → j ≠ "") :
    (∀ err, submit_slurm_job (Except.error err) = none) ∧
    (run basePath baseDir submit).jobIds =
      (run basePath baseDir submit).discovered.filterMap submit ∧
    (run basePath baseDir submit).organised =
      (run basePath baseDir submit).discovered ∧
    (run basePath baseDir submit).scripts =
      (run basePath baseDir submit).discovered.map (scriptPath basePath) ∧
    (∀ l1 f l2, (run basePath baseDir submit).discovered = l1 ++ f :: l2 →
      submit f = none →
      (run basePath baseDir submit).jobIds =
        l1.filterMap submit ++ l2.filterMap submit) := by
  have htruthy : ∀ l : List String,
      l.filterMap (fun f => truthyOpt (submit f)) = l.filterMap submit := by
    intro l
    apply List.filterMap_congr
    intro f _
    rcases hf : submit f with _ | j
    · rfl
    · have hne : j ≠ "" := hids f j hf
      have hje : j.isEmpty = false := by
        rcases he : j.isEmpty with _ | _
        · rfl
        · exact absurd ((String.isEmpty_iff _).mp he) hne
      simp [truthyOpt, hje]
  by_cases hd : (discover_speaker_folders (baseDir.getD [])).isEmpty = true
  · have hnil := List.isEmpty_iff.mp hd
    refine ⟨fun _ => rfl, ?_, ?_, ?_, ?_⟩
    · simp [run, hd, hnil]
    · simp [run, hd, hnil]
    · simp [run, hd, hnil]
    · intro l1 f l2 habs
      simp only [run, hd, if_pos, hnil] at habs
      exact absurd habs.symm (List.append_ne_nil_of_right_ne_nil l1
        (List.cons_ne_nil f l2))
  · have hd' : (discover_speaker_folders (baseDir.getD [])).isEmpty = false := by
      rcases he : (discover_speaker_folders (baseDir.getD [])).isEmpty with _ | _
      · rfl
      · exact absurd he hd
    refine ⟨fun _ => rfl, ?_, ?_, ?_, ?_⟩
    · simp only [run, hd', Bool.false_eq_true, if_false]
      exact htruthy _
    · simp [run, hd']
    · simp [run, hd']
    · intro l1 f l2 hsplit hf
      simp only [run, hd', Bool.false_eq_true, if_false] at hsplit ⊢
      rw [htruthy _, hsplit, List.filterMap_append, List.filterMap_cons, hf]

/-- C2 witness: three discovered units; submission fails for `agentB`
only; the monitored identifiers are exactly the two successful ones and
all three units are organised. -/
theorem submission_failure_isolation_witness :
    (run "/base" (some fsThree) submitEx).discovered =
      ["agentA", "agentB", "agentC"] ∧
    (run "/base" (some fsThree) submitEx).jobIds = ["77", "77"] ∧
    (run "/base" (some fsThree) submitEx).organised =
      ["agentA", "agentB", "agentC"] ∧
    (run "/base" (some fsThree) submitEx).jobIds =
      (["agentA"] : List String).filterMap submitEx ++
        (["agentC"] : List String).filterMap submitEx := by
  have hids : ∀ f j, submitEx f = some j → j ≠ "" := by
    intro f j h
    by_cases hf : f = "agentB"
    · simp [submitEx, hf] at h
    · simp [submitEx, hf] at h
      intro hj
      rw [hj] at h
      exact (by decide : ¬ ("77" : String) = "") h
  have h := submission_failure_isolation "/base" (some fsThree) submitEx hids
  refine ⟨by decide, by decide, ?_, ?_⟩
  · exact h.2.2.1.trans (by decide)
  · exact h.2.2.2.2 ["agentA"] "agentB" ["agentC"] (by decide) (by decide)

/-- C4 counterexample: with a non-existent base directory the
orchestrator does not abort — `run` creates the directory
(`mkdir(parents=True, exist_ok=True)`), discovers nothing and returns
normally with exit code 0. -/
theorem missing_base_dir_counterexample :
    (run "/data/base" none (fun _ => none)).exitCode = 0 ∧
    (run "/data/base" none (fun _ => none)).baseDirCreated = true ∧
    (run "/data/base" none (fun _ => none)).organised = [] := by
  decide

/-- C4 (amended): a missing base directory is not fatal — `run` silently
creates it, discovers no WorkUnits in it and returns normally (exit code
0) having done no work; by contrast the missing-tool-image conditions in
`main` are fatal before any work, raising `SystemExit` with a descriptive
message. -/
theorem missing_base_dir_not_fatal (basePath : String)
    (submit : String → Option String) (pathExists : String → Bool) :
    run basePath none submit = RunTrace.mk true [] [] [] [] 0 ∧
    mainImageGate none none pathExists =
      Except.error
        "WhisperX image path must be provided (via --whisperx-image or WHISPERX_IMAGE)" ∧
    mainImageGate (some "/images/whisperx.sif") none (fun _ => true) =
      Except.error
        "Ollama image path must be provided (via --ollama-image or OLLAMA_IMAGE)" := by
  exact ⟨rfl, rfl, rfl⟩

/-- C5 counterexample: a subdirectory whose only descendant is a
*directory* named `weird.mp3` — the tree holds no file with an
allow-listed extension at all, yet discovery returns the subdirectory,
because the code tests the suffix of every `rglob` result, directories
included. -/
theorem discovery_counts_directories_counterexample :
    discover_speaker_folders fsDirNamedMp3 = ["agent"] ∧
    fsDirNamedMp3.all
      (fun e => !(!e.isDir && audioMatch (e.path.getLastD ""))) = true := by
  decide

/-- C5 (amended): discovery returns exactly the names of immediate
subdirectories that are not dot-prefixed and contain at least one
recursively found *entry* (file or directory) whose extension is on the
audio allow-list, in lexicographic (code-point) order; the result is a
pure function of the tree. -/
theorem discovery_characterization (fs : List FsEntry) :
    List.Pairwise (fun a b => strLeB a b = true)
      (discover_speaker_folders fs) ∧
    ∀ n, n ∈ discover_speaker_folders fs ↔
      ∃ e, e ∈ fs ∧ e.path = [n] ∧ e.isDir = true ∧ startsDot n = false ∧
        ∃ d, d ∈ fs ∧ childName d = n ∧ 2 ≤ d.path.length ∧
          audioMatch (d.path.getLastD "") = true := by
  constructor
  · have hsorted : List.Pairwise entryLe
        (List.insertionSort entryLe (childEntries fs)) :=
      List.sorted_insertionSort entryLe (childEntries fs)
    exact (hsorted.filter (discoveryKeep fs)).map childName (fun a b h => h)
  · intro n
    unfold discover_speaker_folders
    simp only [List.mem_map, List.mem_filter]
    constructor
    · rintro ⟨e, ⟨hmem, hkeep⟩, rfl⟩
      have hmem' : e ∈ childEntries fs :=
        ((List.perm_insertionSort entryLe (childEntries fs)).mem_iff).mp hmem
      rw [childEntries, List.mem_filter] at hmem'
      obtain ⟨hfs, hlen⟩ := hmem'
      simp only [decide_eq_true_eq] at hlen
      simp only [discoveryKeep, Bool.and_eq_true, Bool.not_eq_true'] at hkeep
      obtain ⟨⟨hdir, hdot⟩, haudio⟩ := hkeep
      simp only [hasAudioEntry, List.any_eq_true, Bool.and_eq_true] at haudio
      obtain ⟨d, hd, hunder, hmatch⟩ := haudio
      simp only [underChild, Bool.and_eq_true, decide_eq_true_eq] at hunder
      refine ⟨e, hfs, ?_, hdir, hdot, d, hd, hunder.1, hunder.2, hmatch⟩
      cases hp : e.path with
      | nil => rw [hp] at hlen; simp at hlen
      | cons x t =>
        rw [hp] at hlen
        simp at hlen
        rw [childName, hp, hlen]
        rfl
    · rintro ⟨e, hfs, hpath, hdir, hdot, d, hd, hdn, hdl, hdm⟩
      have hname : childName e = n := by rw [childName, hpath]; rfl
      refine ⟨e, ⟨?_, ?_⟩, hname⟩
      · exact ((List.perm_insertionSort entryLe (childEntries fs)).mem_iff).mpr
          (by rw [childEntries, List.mem_filter]
              exact ⟨hfs, by simp [hpath]⟩)
      · simp only [discoveryKeep, Bool.and_eq_true, Bool.not_eq_true', hname,
          hdir, hdot, true_and]
        simp only [hasAudioEntry, List.any_eq_true, Bool.and_eq_true]
        exact ⟨d, hd, by simp [underChild, hdn, hdl], hdm⟩
